import Mathlib

/-!
# Verification of the exoptima observability engine and RV precision model

Shallow embedding of `exoptima/core/observability.py`, `exoptima/core/precision.py`,
`exoptima/core/rv_models.py`, the catalog in `exoptima/config/instruments.py` and the
state model in `exoptima/core/state.py`.

Conventions of the embedding:
* Instants are real numbers counting UTC days from an arbitrary epoch midnight, so the
  civil calendar date of an instant `t` is `⌊t⌋` and noon of day `d` is `d + 1/2`.
  All comparisons in the source (`Time` ordering, `.jd` arithmetic) are invariant under
  this affine choice of origin.
* Float arithmetic is modelled by exact real arithmetic; NaN statistics are modelled by
  `Option ℝ` (absent = NaN sentinel), and a non-finite altitude sample is an explicit
  boolean capability of the external ephemeris.
* External astronomy capabilities (astroplan `Observer`, `SkyCoord` targets, `get_moon`,
  `moon_illumination`) are out of scope per the spec; they are modelled as function-valued
  fields of an `Observer` record, exactly the functions the engine calls.
-/

namespace Exoptima

/-- Direction argument of astroplan sun/twilight queries (`which="previous"/"next"`). -/
inductive Which
  | previous
  | next
deriving DecidableEq

/-- External ephemeris/observer capability, one field per astroplan call made by
`compute_single_night_observability` (target and location are folded into the
functions, since the engine only ever evaluates them at grid instants). -/
structure Observer where
  is_night : ℝ → ℝ → Bool
  sun_set_time : ℝ → Which → ℝ
  sun_rise_time : ℝ → Which → ℝ
  twilight_evening_nautical : ℝ → Which → ℝ
  twilight_morning_nautical : ℝ → Which → ℝ
  twilight_evening_astronomical : ℝ → Which → ℝ
  twilight_morning_astronomical : ℝ → Which → ℝ
  altitude_deg : ℝ → ℝ
  altitude_finite : ℝ → Bool
  moon_sep_deg : ℝ → ℝ
  moon_fli : ℝ → ℝ

/-- `ObservingConditions` from `core/state.py`; durations are in days
(`min_duration` default 1 hour = 1/24). -/
structure ObservingConditions where
  max_airmass : ℝ
  min_duration : ℝ
  min_moon_separation : ℝ
  ignore_moon_if_fli_above : ℝ

/-- Modelled from the spec: the dataclass `PlanetParameters` is imported from
`exoptima.core.state` by `observability.py` and `precision.py` but its definition is
not under `src/`; fields follow the spec's `PlanetEphemeris` (epoch T0 as Julian date,
orbital period in days, boolean "require transit in window") plus the mass fields read
by `recompute_precision`. -/
structure PlanetParameters where
  t0_jd : Option ℝ
  orbital_period_days : Option ℝ
  include_transit_in_observability : Bool
  planet_mass_mjup : Option ℝ
  stellar_mass_msun : ℝ

/-- `ObservabilityResult` from `core/state.py`; the three NaN-able summary statistics
are `Option ℝ` (none = NaN). -/
structure ObservabilityResult where
  time_grid : List ℝ
  altitude : List ℝ
  mask : List Bool
  observable_time : ℝ
  night_start : ℝ
  night_end : ℝ
  night_duration : ℝ
  is_observable : Bool
  min_airmass : Option ℝ
  min_moon_sep : Option ℝ
  mean_fli : Option ℝ

/-- `NightObservability` cache entry from `core/state.py` (civil date is an integer
day count). -/
structure NightObservability where
  date : ℤ
  result : ObservabilityResult

/-- `MultiNightObservability` from `core/state.py`. -/
structure MultiNightObservability where
  nights : List NightObservability

/-- `DAYTIME_INTERVAL = 0.5*u.hour` from `config/layout.py`, expressed in days. -/
noncomputable def DAYTIME_INTERVAL : ℝ := 1 / 48

/-- `DAY_OBS_NSAMPLES = 300` from `config/layout.py`. -/
def DAY_OBS_NSAMPLES : ℕ := 300

/-- `YEAR_OBS_NIGHTSTEP = 7` from `config/computation.py`. -/
def YEAR_OBS_NIGHTSTEP : ℕ := 7

/-- Default `ObservingConditions` built in `AppState.__init__` from
`config/computation.py` (max airmass 2, min duration 1 h, min Moon separation 30°,
FLI threshold 0.05). -/
noncomputable def defaultConditions : ObservingConditions :=
  { max_airmass := 2
    min_duration := 1 / 24
    min_moon_separation := 30
    ignore_moon_if_fli_above := 0.05 }

/-- Civil calendar date of an instant: `Time.to_datetime().date()`. -/
noncomputable def date_of (t : ℝ) : ℤ := ⌊t⌋

/-- `Time(datetime(d.year, d.month, d.day, 12, 0, 0), scale="utc")`: noon (UTC) of
civil day `d`. -/
noncomputable def noon_of (d : ℤ) : ℝ := (d : ℝ) + 1 / 2

/-- The `_night_bounds` inner function of `compute_single_night_observability`
(`observability.py` lines 72–103). The unknown-policy `ValueError` is modelled as
`none`. -/
def night_bounds (observer : Observer) (ref_time : ℝ) (night_def : String) :
    Option (ℝ × ℝ) :=
  if night_def = "Sunset to sunrise" then
    some (if observer.is_night ref_time 0 then
            (observer.sun_set_time ref_time Which.previous,
             observer.sun_rise_time ref_time Which.next)
          else
            let t_start := observer.sun_set_time ref_time Which.next
            (t_start, observer.sun_rise_time t_start Which.next))
  else if night_def = "Nautical twilight" then
    some (if observer.is_night ref_time (-12) then
            (observer.twilight_evening_nautical ref_time Which.previous,
             observer.twilight_morning_nautical ref_time Which.next)
          else
            let t_start := observer.twilight_evening_nautical ref_time Which.next
            (t_start, observer.twilight_morning_nautical t_start Which.next))
  else if night_def = "Astronomical twilight" then
    some (if observer.is_night ref_time (-18) then
            (observer.twilight_evening_astronomical ref_time Which.previous,
             observer.twilight_morning_astronomical ref_time Which.next)
          else
            let t_start := observer.twilight_evening_astronomical ref_time Which.next
            (t_start, observer.twilight_morning_astronomical t_start Which.next))
  else
    none

/-- The uniform time grid `t_start + linspace(0, t_end - t_start, DAY_OBS_NSAMPLES)`
over `[night_start - DAYTIME_INTERVAL, night_end + DAYTIME_INTERVAL]`
(`observability.py` lines 111–118). -/
noncomputable def time_grid (night_start night_end : ℝ) : List ℝ :=
  (List.range DAY_OBS_NSAMPLES).map fun (i : ℕ) =>
    (night_start - DAYTIME_INTERVAL) +
      (i : ℝ) * ((night_end + DAYTIME_INTERVAL) - (night_start - DAYTIME_INTERVAL)) /
        ((DAY_OBS_NSAMPLES : ℝ) - 1)

/-- `dt = times[1] - times[0]` (`observability.py` line 158). -/
noncomputable def grid_dt (night_start night_end : ℝ) : ℝ :=
  (time_grid night_start night_end).getD 1 0 - (time_grid night_start night_end).getD 0 0

/-- `min_altitude = arcsin(1/max_airmass)` (`observability.py` line 123), converted to
degrees for comparison with the altitude series. -/
noncomputable def min_altitude_deg (max_airmass : ℝ) : ℝ :=
  Real.arcsin (1 / max_airmass) * (180 / Real.pi)

/-- Per-sample Moon mask, `observability.py` lines 139–145:
`moon_sep_mask = sep ≥ min_sep`; if the FLI threshold is `< 1.0` then
`moon_fli_mask = fli ≤ threshold` and `moon_mask = moon_sep_mask | ~moon_fli_mask`,
else `moon_mask = moon_sep_mask`. Polymorphic so it can be evaluated on `ℚ`. -/
def moon_mask_sample {α : Type} [LinearOrderedField α]
    (min_sep ignore_thr sep fli : α) : Bool :=
  let moon_sep_mask := decide (sep ≥ min_sep)
  if ignore_thr < 1 then
    let moon_fli_mask := decide (fli ≤ ignore_thr)
    moon_sep_mask || !moon_fli_mask
  else
    moon_sep_mask

/-- Modelled from the spec (for comparison with `moon_mask_sample`): "a sample also
passes when illumination ≤ that threshold, regardless of separation — i.e.
`moon_mask = moon_sep_mask OR (illumination ≤ threshold)`; if the threshold is ≥ 1.0,
`moon_mask = moon_sep_mask`". -/
def moon_mask_sample_spec {α : Type} [LinearOrderedField α]
    (min_sep ignore_thr sep fli : α) : Bool :=
  if ignore_thr < 1 then
    decide (sep ≥ min_sep) || decide (fli ≤ ignore_thr)
  else
    decide (sep ≥ min_sep)

/-- The per-sample global mask, `observability.py` lines 129 and 151–156:
`night_mask & (altitude ≥ min_altitude) & moon_mask & isfinite(altitude)`. -/
noncomputable def base_mask (observer : Observer) (conditions : ObservingConditions)
    (night_start night_end : ℝ) : List Bool :=
  (time_grid night_start night_end).map fun t =>
    decide (night_start ≤ t ∧ t ≤ night_end)
    && decide (observer.altitude_deg t ≥ min_altitude_deg conditions.max_airmass)
    && moon_mask_sample conditions.min_moon_separation conditions.ignore_moon_if_fli_above
         (observer.moon_sep_deg t) (observer.moon_fli t)
    && observer.altitude_finite t

/-- `_has_transit_in_window` (`observability.py` lines 26–48): enumerate transit
epochs `n` from `⌊(start-T0)/P⌋` to `⌈(end-T0)/P⌉` and test whether any
`T0 + n·P` lies in `[window_start, window_end]`. -/
noncomputable def has_transit_in_window (t0_jd period_days window_start window_end : ℝ) :
    Bool :=
  let n_min : ℤ := ⌊(window_start - t0_jd) / period_days⌋
  let n_max : ℤ := ⌈(window_end - t0_jd) / period_days⌉
  decide (∃ n ∈ Finset.Icc n_min n_max,
    window_start ≤ t0_jd + (n : ℝ) * period_days ∧
      t0_jd + (n : ℝ) * period_days ≤ window_end)

/-- Mask, observable time and observability flag after the optional transit
constraint (`observability.py` lines 151–185): base values, then if a transit is
required and T0/period is missing or no transit falls in the night window, the mask
is cleared, the observable time zeroed and the flag lowered. -/
noncomputable def masked_triple (observer : Observer) (conditions : ObservingConditions)
    (planet_params : Option PlanetParameters) (night_start night_end : ℝ) :
    List Bool × ℝ × Bool :=
  let mask := base_mask observer conditions night_start night_end
  let dt := grid_dt night_start night_end
  let observable_time := (mask.count true : ℝ) * dt
  let is_observable := decide (observable_time ≥ conditions.min_duration)
  let fail_closed : List Bool × ℝ × Bool :=
    (List.replicate DAY_OBS_NSAMPLES false, 0, false)
  match planet_params with
  | none => (mask, observable_time, is_observable)
  | some pp =>
    if pp.include_transit_in_observability then
      match pp.t0_jd, pp.orbital_period_days with
      | some t0, some P =>
        if has_transit_in_window t0 P night_start night_end then
          (mask, observable_time, is_observable)
        else fail_closed
      | some _, none => fail_closed
      | none, _ => fail_closed
    else (mask, observable_time, is_observable)

/-- Values of `xs` at the positions where `mask` holds (numpy boolean indexing). -/
def masked_vals (xs : List ℝ) (mask : List Bool) : List ℝ :=
  (xs.zip mask).filterMap fun p => if p.2 then some p.1 else none

/-- Minimum of a list, `none` on empty input (NaN sentinel of `np.nanmin`/`.min()`). -/
def list_min : List ℝ → Option ℝ
  | [] => none
  | x :: xs => some (xs.foldl min x)

/-- Mean of a list, `none` on empty input (NaN sentinel of `np.mean`). -/
noncomputable def list_mean (l : List ℝ) : Option ℝ :=
  if l.isEmpty then none else some (l.sum / (l.length : ℝ))

/-- Body of `compute_single_night_observability` after night bounds are known
(`observability.py` lines 111–210): grid, masks, transit constraint, summary
statistics (computed from the final mask, after the transit override), result. -/
noncomputable def compute_observability_core (observer : Observer)
    (conditions : ObservingConditions) (planet_params : Option PlanetParameters)
    (night_start night_end : ℝ) : ObservabilityResult :=
  let times := time_grid night_start night_end
  let triple := masked_triple observer conditions planet_params night_start night_end
  let mask := triple.1
  let altitude := times.map observer.altitude_deg
  let min_airmass :=
    list_min ((masked_vals altitude mask).map fun a => 1 / Real.sin (a * (Real.pi / 180)))
  let min_moon_sep := list_min (masked_vals (times.map observer.moon_sep_deg) mask)
  let mean_fli := list_mean (masked_vals (times.map observer.moon_fli) mask)
  { time_grid := times
    altitude := altitude
    mask := mask
    observable_time := triple.2.1
    night_start := night_start
    night_end := night_end
    night_duration := night_end - night_start
    is_observable := triple.2.2
    min_airmass := min_airmass
    min_moon_sep := min_moon_sep
    mean_fli := mean_fli }

/-- `compute_single_night_observability` (`observability.py` lines 55–210); `none`
models the `ValueError` raised on an unknown night definition. -/
noncomputable def compute_single_night_observability (observer : Observer)
    (ref_time : ℝ) (conditions : ObservingConditions) (night_definition : String)
    (planet_params : Option PlanetParameters) : Option ObservabilityResult :=
  (night_bounds observer ref_time night_definition).map fun be =>
    compute_observability_core observer conditions planet_params be.1 be.2

/-! ## Night cache and multi-night orchestration

The cache is threaded explicitly, and — as the spec's idempotence test asks for a
"call counter on the underlying evaluator" — the state carries a counter that is
incremented exactly when the single-night evaluator is invoked. The evaluator itself
is a parameter `evalNight` (in the source it is the fixed callee
`compute_single_night_observability` partially applied to observer, target,
conditions, night definition and planet parameters). -/

/-- Explicit cache state: the `night_cache : dict[date, NightObservability]` plus the
instrumentation counter of evaluator invocations. -/
structure CacheState where
  night_cache : List (ℤ × NightObservability)
  evalCalls : ℕ

/-- `get_or_compute_night` (`observability.py` lines 217–248): evaluate the night for
`ref_time`, key the cache by the civil date of `result.night_start`, insert if
absent, and return `night_cache[night_date]`. `none` models a propagated exception
from the evaluator. The final lookup is total in the source (the key was just
inserted if missing), hence the `getD` default. -/
noncomputable def get_or_compute_night (evalNight : ℝ → Option ObservabilityResult)
    (ref_time : ℝ) (s : CacheState) : Option (NightObservability × CacheState) :=
  match evalNight ref_time with
  | none => none
  | some result =>
    let night_date : ℤ := date_of result.night_start
    let cache :=
      if (s.night_cache.lookup night_date).isSome then s.night_cache
      else (night_date, NightObservability.mk night_date result) :: s.night_cache
    some ((cache.lookup night_date).getD (NightObservability.mk night_date result),
          ⟨cache, s.evalCalls + 1⟩)

/-- `compute_night_observability` (`observability.py` lines 251–278): evaluate one
night without touching the cache and wrap it with its civil date. -/
noncomputable def compute_night_observability
    (evalNight : ℝ → Option ObservabilityResult) (ref_time : ℝ) :
    Option NightObservability :=
  (evalNight ref_time).map fun result =>
    NightObservability.mk (date_of result.night_start) result

/-- `compute_multi_night_observability` (`observability.py` lines 281–309): fold
`get_or_compute_night` over the reference instants in order, collecting the
night records in that same order. -/
noncomputable def compute_multi_night_observability
    (evalNight : ℝ → Option ObservabilityResult) :
    List ℝ → CacheState → Option (List NightObservability × CacheState)
  | [], s => some ([], s)
  | t :: ts, s =>
    match get_or_compute_night evalNight t s with
    | none => none
    | some (n, s') =>
      match compute_multi_night_observability evalNight ts s' with
      | none => none
      | some (ns, s'') => some (n :: ns, s'')

/-! ## Instrument and observatory catalog (`config/instruments.py`) -/

/-- `Observatory` (static geometry fields; the astroplan observer construction is an
external capability, see `recompute_observability`). -/
structure Observatory where
  name : String
  latitude_deg : ℝ
  longitude_deg : ℝ
  elevation_m : ℝ

/-- `RVEstimation`: reference exposure time (s), reference magnitude and the
per-spectral-type SNR / RV-precision reference maps. -/
structure RVEstimation where
  ref_exptime : ℝ
  ref_mag : ℝ
  ref_snr : String → Option ℝ
  ref_rv_precision : String → Option ℝ

/-- `Instrument` from `config/instruments.py`. -/
structure Instrument where
  name : String
  observatory : Observatory
  resolution : ℝ
  telescope_diameter : ℝ
  rv_estimation : Option RVEstimation

/-- `LA_SILLA` observatory. -/
noncomputable def LA_SILLA : Observatory :=
  ⟨"La Silla Observatory", -29.2567, -70.7346, 2400⟩

/-- `LA_PALMA` observatory. -/
noncomputable def LA_PALMA : Observatory :=
  ⟨"Roque de los Muchachos Observatory", 28.7606, -17.8850, 2396⟩

/-- `PARANAL` observatory. -/
noncomputable def PARANAL : Observatory :=
  ⟨"Paranal Observatory", -24.6270, -70.4040, 2635⟩

/-- `CALAR_ALTO` observatory. -/
noncomputable def CALAR_ALTO : Observatory :=
  ⟨"Calar Alto Observatory", 37.2236, -2.5463, 2168⟩

/-- `KECK_OBSERVATORY`. -/
noncomputable def KECK_OBSERVATORY : Observatory :=
  ⟨"W. M. Keck Observatory", 19.8261, -155.4749, 4160⟩

/-- `ESPRESSO` catalog entry, the only instrument with an `RVEstimation` model. -/
noncomputable def ESPRESSO : Instrument :=
  { name := "ESPRESSO"
    observatory := PARANAL
    resolution := 140000
    telescope_diameter := 8.2
    rv_estimation := some
      { ref_exptime := 600
        ref_mag := 10
        ref_snr := fun st =>
          if st = "G2" then some 112.456
          else if st = "K2" then some 113.19
          else if st = "K7" then some 114.972
          else if st = "M2" then some 110.771
          else none
        ref_rv_precision := fun st =>
          if st = "G2" then some 0.53
          else if st = "K2" then some 0.53
          else if st = "K7" then some 0.52
          else if st = "M2" then some 0.54
          else none } }

/-- `EXOTICA` catalog entry. -/
noncomputable def EXOTICA : Instrument :=
  ⟨"EXOTICA", CALAR_ALTO, 65000, 1.23, none⟩

/-- `CORALIE` catalog entry. -/
noncomputable def CORALIE : Instrument :=
  ⟨"CORALIE", LA_SILLA, 60000, 1.2, none⟩

/-- `HARPS` catalog entry. -/
noncomputable def HARPS : Instrument :=
  ⟨"HARPS", LA_SILLA, 115000, 3.6, none⟩

/-- `HARPS-N` catalog entry. -/
noncomputable def HARPS_N : Instrument :=
  ⟨"HARPS-N", LA_PALMA, 115000, 3.58, none⟩

/-- `KPF` catalog entry. -/
noncomputable def KPF : Instrument :=
  ⟨"KPF", KECK_OBSERVATORY, 98000, 10.0, none⟩

/-- `CARMENES-VIS` catalog entry. -/
noncomputable def CARMENES_VIS : Instrument :=
  ⟨"CARMENES-VIS", CALAR_ALTO, 94600, 3.25, none⟩

/-- `NIRPS-HA` catalog entry. -/
noncomputable def NIRPS_HA : Instrument :=
  ⟨"NIRPS-HA", LA_SILLA, 75000, 3.6, none⟩

/-- `NIRPS-HE` catalog entry. -/
noncomputable def NIRPS_HE : Instrument :=
  ⟨"NIRPS-HE", LA_SILLA, 100000, 3.6, none⟩

/-- The `INSTRUMENTS` dictionary as a name-keyed lookup (`.get`). -/
noncomputable def INSTRUMENTS : String → Option Instrument := fun name =>
  if name = "EXOTICA" then some EXOTICA
  else if name = "CORALIE" then some CORALIE
  else if name = "HARPS" then some HARPS
  else if name = "HARPS-N" then some HARPS_N
  else if name = "ESPRESSO" then some ESPRESSO
  else if name = "KPF" then some KPF
  else if name = "CARMENES-VIS" then some CARMENES_VIS
  else if name = "NIRPS-HA" then some NIRPS_HA
  else if name = "NIRPS-HE" then some NIRPS_HE
  else none

/-! ## RV precision model (`core/precision.py`, duplicated in `core/rv_models.py`) -/

/-- Output dictionary of `compute_rv_precision`. -/
structure RVPrecisionOutput where
  snr : ℝ
  rv_precision : ℝ
  snr_ref : ℝ
  rv_ref : ℝ
  scaled_from : String

/-- Base-model selection of `compute_rv_precision` (`precision.py` lines 161–175):
the instrument's own model if present, else the catalog's `"ESPRESSO"` entry. The
catalog is a parameter so the missing-fallback branches are statable; the engine
instantiates it with `INSTRUMENTS`. -/
def select_model_with (catalog : String → Option Instrument) (instrument : Instrument) :
    Option (RVEstimation × Instrument) :=
  match instrument.rv_estimation with
  | some model => some (model, instrument)
  | none =>
    match catalog "ESPRESSO" with
    | none => none
    | some espresso =>
      match espresso.rv_estimation with
      | none => none
      | some model => some (model, espresso)

/-- `compute_rv_precision` (`precision.py` lines 135–229), generic in the catalog:
select the base model, fetch per-spectral-type references, apply
`SNR = SNR_ref · (D/D_ref) · sqrt(t/t_ref) · 10^(−0.2(V−V_ref))` and
`RV = RV_ref · (SNR_ref/SNR) · (R_ref/R)^1.5`, failing on missing references or
`SNR ≤ 0`. -/
noncomputable def compute_rv_precision_with (catalog : String → Option Instrument)
    (instrument : Instrument) (spectral_type : String) (vmag exposure_time : ℝ) :
    Option RVPrecisionOutput :=
  match select_model_with catalog instrument with
  | none => none
  | some (model, base_instrument) =>
    match model.ref_snr spectral_type, model.ref_rv_precision spectral_type with
    | some snr_ref, some rv_ref =>
      let time_factor := Real.sqrt (exposure_time / model.ref_exptime)
      let mag_factor := (10 : ℝ) ^ (-(0.2) * (vmag - model.ref_mag))
      let diameter_factor := instrument.telescope_diameter / base_instrument.telescope_diameter
      let snr := snr_ref * diameter_factor * time_factor * mag_factor
      if snr ≤ 0 then none
      else
        let resolution_factor := (base_instrument.resolution / instrument.resolution) ^ (1.5 : ℝ)
        some { snr := snr
               rv_precision := rv_ref * (snr_ref / snr) * resolution_factor
               snr_ref := snr_ref
               rv_ref := rv_ref
               scaled_from := base_instrument.name }
    | _, _ => none

/-- `compute_rv_precision` with the concrete catalog, as called by the engine. -/
noncomputable def compute_rv_precision (instrument : Instrument)
    (spectral_type : String) (vmag exposure_time : ℝ) : Option RVPrecisionOutput :=
  compute_rv_precision_with INSTRUMENTS instrument spectral_type vmag exposure_time

/-- `astropy.constants.G` in SI units (m³ kg⁻¹ s⁻²). -/
noncomputable def G_SI : ℝ := 6.6743e-11

/-- `u.M_jup` in kg (astropy Jupiter-mass constant). -/
noncomputable def M_JUP_KG : ℝ := 1.8981246e27

/-- `u.M_sun` in kg (astropy solar-mass constant). -/
noncomputable def M_SUN_KG : ℝ := 1.98840987e30

/-- One `u.day` in seconds. -/
noncomputable def DAY_S : ℝ := 86400

/-- `compute_rv_semi_amplitude` (`precision.py` lines 232–265):
`K = (2πG/P)^(1/3) · (Mp·sin_i) / Mstar^(2/3) / sqrt(1−e²)`, with the astropy unit
conversions made explicit (masses to kg, period to seconds; the result is m/s). -/
noncomputable def compute_rv_semi_amplitude (planet_mass_mjup orbital_period_days
    stellar_mass_msun sin_i eccentricity : ℝ) : ℝ :=
  let Mp := planet_mass_mjup * M_JUP_KG
  let Mstar := stellar_mass_msun * M_SUN_KG
  let P := orbital_period_days * DAY_S
  (2 * Real.pi * G_SI / P) ^ ((1 : ℝ) / 3) * (Mp * sin_i) / Mstar ^ ((2 : ℝ) / 3) /
    Real.sqrt (1 - eccentricity ^ 2)

/-- The pair of canonical semi-amplitude cases returned by
`compute_rv_amplitudes_two_cases`. -/
structure RVAmplitudeCases where
  optimistic : ℝ
  realistic : ℝ

/-- `compute_rv_amplitudes_two_cases` (`precision.py` lines 267–301): optimistic case
`sin_i = 1.0, e = 0.0`; realistic case `sin_i_mean = np.pi / 4.0` (≈ 0.785, the mean
of sin i) and `e_median = 0.2`. -/
noncomputable def compute_rv_amplitudes_two_cases
    (planet_mass_mjup orbital_period_days stellar_mass_msun : ℝ) : RVAmplitudeCases :=
  { optimistic :=
      compute_rv_semi_amplitude planet_mass_mjup orbital_period_days stellar_mass_msun 1 0
    realistic :=
      compute_rv_semi_amplitude planet_mass_mjup orbital_period_days stellar_mass_msun
        (Real.pi / 4) 0.2 }

/-- Modelled from the spec (for comparison with `compute_rv_semi_amplitude`):
`K = (2π·G/P)^(1/3) · (Mp·sin_i) / Mstar^(2/3) / sqrt(1 − e²)` over SI inputs. -/
noncomputable def semi_amplitude_formula_spec (Mp_kg P_s Mstar_kg sin_i e : ℝ) : ℝ :=
  (2 * Real.pi * G_SI / P_s) ^ ((1 : ℝ) / 3) * (Mp_kg * sin_i) / Mstar_kg ^ ((2 : ℝ) / 3) /
    Real.sqrt (1 - e ^ 2)

/-- `compute_detection_significance_curve` (`precision.py` lines 303–347): `K/σ(t)`
pointwise, `none` entries for failed or non-positive precisions, and `none` overall
when no entry is finite. -/
noncomputable def compute_detection_significance_curve (exposure_times : List ℝ)
    (instrument : Instrument) (spectral_type : String) (vmag : ℝ) (K_value : Option ℝ) :
    Option (List (Option ℝ)) :=
  match K_value with
  | none => none
  | some K =>
    let sig_vals := exposure_times.map fun t =>
      match compute_rv_precision instrument spectral_type vmag t with
      | none => none
      | some res => if res.rv_precision ≤ 0 then none else some (K / res.rv_precision)
    if sig_vals.all Option.isNone then none else some sig_vals

/-! ## Application state and recompute drivers -/

/-- `Star` from `core/state.py`; `sptype` is optional because `recompute_precision`
tests `star.sptype is None`. -/
structure Star where
  name : String
  ra : String
  dec : String
  vmag : Option ℝ
  sptype : Option String

/-- The `precision_result` dictionary stored by `recompute_precision`
(`precision.py` lines 123–130); NaN curve entries are `none`. -/
structure PrecisionResult where
  times : List ℝ
  snr_curve : List (Option ℝ)
  rv_curve : List (Option ℝ)
  requested : RVPrecisionOutput
  K_cases : Option RVAmplitudeCases
  detectability : Option (Option (List (Option ℝ)) × Option (List (Option ℝ)))

/-- The slice of `AppState` (`core/state.py`) the recompute drivers read and write.
`planet_params`, `exposure_time` and `precision_result` are modelled from the spec
and the drivers' usage: they are accessed on `AppState` but not declared under
`src/`. -/
structure AppState where
  star : Option Star
  instrument : Option Instrument
  conditions : Option ObservingConditions
  planet_params : Option PlanetParameters
  exposure_time : ℝ
  reference_time : ℝ
  night_definition : String
  observability : Option ObservabilityResult
  monthly_observability : Option MultiNightObservability
  yearly_observability : Option MultiNightObservability
  precision_result : Option PrecisionResult
  night_cache : CacheState

/-- `recompute_observability` (`observability.py` lines 316–342). The construction of
the astroplan observer from the observatory and of the `SkyCoord` target from the
star's coordinates is external (`to_astroplan_observer`, `SkyCoord`); it is passed as
the capability `mkObserver`. On missing star/instrument/conditions the driver
returns `None` before touching `app_state.observability`. A `none` from the evaluator
models the propagated `ValueError` (state not yet mutated at the raise point). -/
noncomputable def recompute_observability (mkObserver : Observatory → Star → Observer)
    (app_state : AppState) : AppState × Option ObservabilityResult :=
  match app_state.star, app_state.instrument, app_state.conditions with
  | some star, some instrument, some conditions =>
    let observer := mkObserver instrument.observatory star
    match compute_single_night_observability observer app_state.reference_time
        conditions app_state.night_definition app_state.planet_params with
    | some result => ({ app_state with observability := some result }, some result)
    | none => (app_state, none)
  | _, _, _ => (app_state, none)

/-- The `np.linspace(t_min, t_max, 60)` sampling grid of `recompute_precision`. -/
noncomputable def precision_time_grid (t_min t_max : ℝ) : List ℝ :=
  (List.range 60).map fun (i : ℕ) => t_min + (i : ℝ) * (t_max - t_min) / 59

/-- `recompute_precision` (`precision.py` lines 13–132): missing star/instrument or
missing magnitude/spectral type store `None` and return `None`; otherwise build the
breakpointed exposure-time range, the SNR/RV curves, the requested point, the two
semi-amplitude cases when planet mass and period are present, and the detectability
curves, and store the assembled result. -/
noncomputable def recompute_precision (app_state : AppState) :
    AppState × Option PrecisionResult :=
  match app_state.star, app_state.instrument with
  | some star, some instrument =>
    match star.vmag, star.sptype with
    | some vmag, some sptype =>
      let t_req := app_state.exposure_time
      let t_min : ℝ := 60
      let t_max : ℝ :=
        if t_req < 15 * 60 then 30 * 60
        else if t_req < 30 * 60 then 60 * 60
        else 3.0 * t_req
      let times := precision_time_grid t_min t_max
      let snr_vals := times.map fun t =>
        (compute_rv_precision instrument sptype vmag t).map RVPrecisionOutput.snr
      let rv_vals := times.map fun t =>
        (compute_rv_precision instrument sptype vmag t).map RVPrecisionOutput.rv_precision
      match compute_rv_precision instrument sptype vmag t_req with
      | none => ({ app_state with precision_result := none }, none)
      | some req =>
        let K_cases :=
          match app_state.planet_params with
          | none => none
          | some pp =>
            match pp.planet_mass_mjup, pp.orbital_period_days with
            | some mass, some period =>
              some (compute_rv_amplitudes_two_cases mass period pp.stellar_mass_msun)
            | _, _ => none
        let detectability :=
          match K_cases with
          | none => none
          | some K =>
            some (compute_detection_significance_curve times instrument sptype vmag
                    (some K.optimistic),
                  compute_detection_significance_curve times instrument sptype vmag
                    (some K.realistic))
        let result : PrecisionResult :=
          { times := times
            snr_curve := snr_vals
            rv_curve := rv_vals
            requested := req
            K_cases := K_cases
            detectability := detectability }
        ({ app_state with precision_result := some result }, some result)
    | _, _ => ({ app_state with precision_result := none }, none)
  | _, _ => ({ app_state with precision_result := none }, none)

/-- `recompute_multi_night_observability_driver` (`observability.py` lines 345–377):
missing star/instrument/conditions yield `None`; otherwise run the multi-night
computation over the session cache. -/
noncomputable def recompute_multi_night_observability_driver
    (mkObserver : Observatory → Star → Observer) (app_state : AppState)
    (ref_times : List ℝ) : AppState × Option MultiNightObservability :=
  match app_state.star, app_state.instrument, app_state.conditions with
  | some star, some instrument, some conditions =>
    let observer := mkObserver instrument.observatory star
    let evalNight := fun t =>
      compute_single_night_observability observer t conditions
        app_state.night_definition app_state.planet_params
    match compute_multi_night_observability evalNight ref_times app_state.night_cache with
    | none => (app_state, none)
    | some (nights, cache) =>
      ({ app_state with night_cache := cache }, some ⟨nights⟩)
  | _, _, _ => (app_state, none)

/-- The 31 month-scope reference instants of `recompute_monthly_observability`
(`observability.py` lines 384–391): noon of each calendar day from −15 to +15 days
around the civil date of the reference time, in that order. -/
noncomputable def monthly_ref_times (reference_time : ℝ) : List ℝ :=
  (List.range 31).map fun (i : ℕ) => noon_of (date_of reference_time + (i : ℤ) - 15)

/-- `recompute_monthly_observability` (`observability.py` lines 380–399); the result
(also when `None`) is stored in `monthly_observability`. -/
noncomputable def recompute_monthly_observability
    (mkObserver : Observatory → Star → Observer) (app_state : AppState) :
    AppState × Option MultiNightObservability :=
  let p := recompute_multi_night_observability_driver mkObserver app_state
    (monthly_ref_times app_state.reference_time)
  ({ p.1 with monthly_observability := p.2 }, p.2)

/-- The year-scope reference instants of `recompute_yearly_observability`
(`observability.py` lines 406–420): noons stepped by `YEAR_OBS_NIGHTSTEP` over
`range(-182, 183, 7)`. -/
noncomputable def yearly_ref_times (reference_time : ℝ) : List ℝ :=
  ((List.range ((365 / 2 * 2) / YEAR_OBS_NIGHTSTEP + 1)).map fun (i : ℕ) =>
    noon_of (date_of reference_time + (i : ℤ) * (YEAR_OBS_NIGHTSTEP : ℤ) - 182))

/-! ## Shared witness fixtures -/

/-- An empty observability result used as a concrete fixture in witnesses. -/
noncomputable def trivialResult : ObservabilityResult :=
  ⟨[], [], [], 0, 0, 0, 0, false, none, none, none⟩

/-- A constant single-night evaluator used as a concrete fixture in witnesses. -/
noncomputable def constEval : ℝ → Option ObservabilityResult := fun _ => some trivialResult

/-- A cache entry for civil day 0 holding `trivialResult`. -/
noncomputable def trivialEntry : NightObservability := ⟨0, trivialResult⟩

/-! ## C2: Moon override rule -/

/-- C2: the Moon mask at the spec's stated semantics versus the code. At Moon
separation 10° (below the 30° minimum) and illumination 0.1 (below the 0.5
threshold), the code's per-sample Moon mask (`moon_sep_mask | ~moon_fli_mask`)
rejects the sample while the spec's `moon_sep_mask OR (illumination ≤ threshold)`
accepts it: the code negates the dark-Moon condition. -/
theorem moon_mask_dark_sample_eval :
    moon_mask_sample (30 : ℚ) (1 / 2) 10 (1 / 10) = false ∧
      moon_mask_sample_spec (30 : ℚ) (1 / 2) 10 (1 / 10) = true := by
  constructor <;> norm_num [moon_mask_sample, moon_mask_sample_spec]

/-! ## C4: canonical semi-amplitude cases -/

/-- Strict monotonicity of the semi-amplitude in `sin_i` for positive inputs. -/
theorem semi_amplitude_strictMonoIn_sin_i (mp P ms : ℝ) (hmp : 0 < mp) (hP : 0 < P)
    (hms : 0 < ms) {x y : ℝ} (hxy : x < y) (e : ℝ) (he : e ^ 2 < 1) :
    compute_rv_semi_amplitude mp P ms x e < compute_rv_semi_amplitude mp P ms y e := by
  have hG : (0 : ℝ) < G_SI := by norm_num [G_SI]
  have hMJ : (0 : ℝ) < M_JUP_KG := by norm_num [M_JUP_KG]
  have hMS : (0 : ℝ) < M_SUN_KG := by norm_num [M_SUN_KG]
  have hD : (0 : ℝ) < DAY_S := by norm_num [DAY_S]
  have hA : 0 < (2 * Real.pi * G_SI / (P * DAY_S)) ^ ((1 : ℝ) / 3) :=
    Real.rpow_pos_of_pos (by positivity) _
  have hB : 0 < (ms * M_SUN_KG) ^ ((2 : ℝ) / 3) :=
    Real.rpow_pos_of_pos (by positivity) _
  have hC : 0 < Real.sqrt (1 - e ^ 2) := Real.sqrt_pos.mpr (by linarith)
  unfold compute_rv_semi_amplitude
  refine (div_lt_div_iff_of_pos_right hC).mpr ((div_lt_div_iff_of_pos_right hB).mpr ?_)
  have hw : 0 < mp * M_JUP_KG := mul_pos hmp hMJ
  nlinarith [mul_pos hA hw, mul_pos (mul_pos hA hw) (sub_pos.mpr hxy)]

/-- C4 (counterexample): the "realistic" case does not use `sin_i = sin(π/4)`; at
planet mass 1 M_jup, period 1 d, stellar mass 1 M_sun, the returned realistic
amplitude differs from the formula evaluated at `sin(π/4)` (the code uses `π/4`,
and `sin(π/4) < π/4`). -/
theorem realistic_case_not_sin_pi_div_four :
    (compute_rv_amplitudes_two_cases 1 1 1).realistic ≠
      compute_rv_semi_amplitude 1 1 1 (Real.sin (Real.pi / 4)) 0.2 := by
  have h2 : Real.sqrt 2 < 3 / 2 := by
    nlinarith [Real.sq_sqrt (show (0 : ℝ) ≤ 2 by norm_num), Real.sqrt_nonneg 2]
  have hs : Real.sin (Real.pi / 4) < Real.pi / 4 := by
    rw [Real.sin_pi_div_four]
    nlinarith [Real.pi_gt_d6]
  have hmono :=
    semi_amplitude_strictMonoIn_sin_i 1 1 1 one_pos one_pos one_pos hs 0.2 (by norm_num)
  exact ne_of_gt (by simpa [compute_rv_amplitudes_two_cases] using hmono)

/-- C4 (amended): the two canonical cases are always produced together from the
spec's formula over SI-converted inputs, with optimistic `sin_i = 1, e = 0` and
realistic `sin_i = π/4` (the mean of sin i, not `sin(π/4)`), `e = 0.2`. -/
theorem rv_amplitudes_two_cases_eval (mp P ms : ℝ) :
    compute_rv_amplitudes_two_cases mp P ms =
      { optimistic :=
          semi_amplitude_formula_spec (mp * M_JUP_KG) (P * DAY_S) (ms * M_SUN_KG) 1 0
        realistic :=
          semi_amplitude_formula_spec (mp * M_JUP_KG) (P * DAY_S) (ms * M_SUN_KG)
            (Real.pi / 4) 0.2 } := rfl

/-! ## C1: night cache behavior -/

/-- C1 (amended): `get_or_compute_night` invokes the underlying evaluator on every
call (the call counter always advances by one) because the cache key — the civil
date of `night_start` — is derived from the fresh evaluation; on a cache hit the
fresh result is discarded, the stored entry is returned unchanged and the cache is
not modified, so a second call with the same reference instant returns the
identical stored object of the first call. -/
theorem night_cache_hit_and_idempotence (E : ℝ → Option ObservabilityResult) (r : ℝ)
    (s : CacheState) :
    (∀ result entry, E r = some result →
        s.night_cache.lookup (date_of result.night_start) = some entry →
        get_or_compute_night E r s = some (entry, ⟨s.night_cache, s.evalCalls + 1⟩))
    ∧ (∀ e1 s1, get_or_compute_night E r s = some (e1, s1) →
        get_or_compute_night E r s1 = some (e1, ⟨s1.night_cache, s1.evalCalls + 1⟩)) := by
  constructor
  · intro result entry hE hlook
    unfold get_or_compute_night
    rw [hE]
    simp [hlook]
  · intro e1 s1 h
    unfold get_or_compute_night at h ⊢
    cases hE : E r with
    | none => rw [hE] at h; exact absurd h (by simp)
    | some result =>
      rw [hE] at h
      by_cases hhit : (s.night_cache.lookup (date_of result.night_start)).isSome
      · obtain ⟨entry, hent⟩ := Option.isSome_iff_exists.mp hhit
        simp only [hent, Option.isSome_some, if_true, Option.getD_some,
          Option.some.injEq, Prod.mk.injEq] at h
        obtain ⟨he1, hs1⟩ := h
        subst hs1
        simp [hent, he1]
      · simp only [hhit, if_false, Bool.false_eq_true, ite_false, Option.some.injEq,
          Prod.mk.injEq] at h
        obtain ⟨he1, hs1⟩ := h
        subst hs1
        have hfront : (((date_of result.night_start,
            NightObservability.mk (date_of result.night_start) result) ::
              s.night_cache).lookup (date_of result.night_start)) =
            some (NightObservability.mk (date_of result.night_start) result) := by
          simp [List.lookup]
        simp [hfront, ← he1]

/-- C1 (witness): on a preloaded cache containing civil day 0, a call with a
constant evaluator returns the stored entry and advances the call counter. -/
theorem night_cache_hit_and_idempotence_witness :
    get_or_compute_night constEval 0 ⟨[(0, trivialEntry)], 0⟩ =
      some (trivialEntry, ⟨[(0, trivialEntry)], 1⟩) :=
  (night_cache_hit_and_idempotence constEval 0 ⟨[(0, trivialEntry)], 0⟩).1
    trivialResult trivialEntry rfl
    (by simp [trivialResult, date_of, List.lookup, trivialEntry])

/-- A constant-ephemeris observer used as a concrete fixture in witnesses: always
night, all sun/twilight events at instant 0, target at the zenith, Moon far and
dark. -/
noncomputable def witObserver : Observer :=
  { is_night := fun _ _ => true
    sun_set_time := fun _ _ => 0
    sun_rise_time := fun _ _ => 0
    twilight_evening_nautical := fun _ _ => 0
    twilight_morning_nautical := fun _ _ => 0
    twilight_evening_astronomical := fun _ _ => 0
    twilight_morning_astronomical := fun _ _ => 0
    altitude_deg := fun _ => 90
    altitude_finite := fun _ => true
    moon_sep_deg := fun _ => 180
    moon_fli := fun _ => 0 }

/-- An empty precision result used as a concrete fixture. -/
noncomputable def trivialPrecision : PrecisionResult :=
  ⟨[], [], [], ⟨1, 1, 1, 1, "ESPRESSO"⟩, none, none⟩

/-- An `AppState` with no star selected but a previously stored precision result. -/
noncomputable def stateMissingStar : AppState :=
  { star := none
    instrument := none
    conditions := none
    planet_params := none
    exposure_time := 0
    reference_time := 0
    night_definition := "Nautical twilight"
    observability := none
    monthly_observability := none
    yearly_observability := none
    precision_result := some trivialPrecision
    night_cache := ⟨[], 0⟩ }

/-! ## C5: exposure-time scaling of SNR and RV precision -/

/-- C5: doubling the exposure time multiplies the SNR by `sqrt 2` and divides the RV
precision by `sqrt 2`: whenever `compute_rv_precision` succeeds at exposure time `t`,
it also succeeds at `2·t` and returns exactly the `sqrt 2`-scaled outputs, all other
inputs held fixed. -/
theorem snr_rv_double_time_scaling (instrument : Instrument) (spectral_type : String)
    (vmag t : ℝ) (r : RVPrecisionOutput)
    (h : compute_rv_precision instrument spectral_type vmag t = some r) :
    compute_rv_precision instrument spectral_type vmag (2 * t) =
      some { r with snr := Real.sqrt 2 * r.snr,
                    rv_precision := r.rv_precision / Real.sqrt 2 } := by
  unfold compute_rv_precision at h ⊢
  unfold compute_rv_precision_with at h ⊢
  cases hsel : select_model_with INSTRUMENTS instrument with
  | none => rw [hsel] at h; cases h
  | some mb =>
    obtain ⟨model, base⟩ := mb
    rw [hsel] at h
    dsimp only at h ⊢
    cases hsnr : model.ref_snr spectral_type with
    | none => rw [hsnr] at h; cases h
    | some snr_ref =>
      rw [hsnr] at h
      cases hrv : model.ref_rv_precision spectral_type with
      | none => rw [hrv] at h; cases h
      | some rv_ref =>
        rw [hrv] at h
        dsimp only at h ⊢
        rw [show 2 * t / model.ref_exptime = 2 * (t / model.ref_exptime) by ring,
          Real.sqrt_mul (by norm_num : (0 : ℝ) ≤ 2)]
        split_ifs at h with hneg
        have hr := Option.some.inj h
        subst hr
        have hs1 : 0 < snr_ref * (instrument.telescope_diameter / base.telescope_diameter) *
            Real.sqrt (t / model.ref_exptime) * (10 : ℝ) ^ (-(0.2) * (vmag - model.ref_mag)) :=
          not_le.mp hneg
        have heq : snr_ref * (instrument.telescope_diameter / base.telescope_diameter) *
            (Real.sqrt 2 * Real.sqrt (t / model.ref_exptime)) *
              (10 : ℝ) ^ (-(0.2) * (vmag - model.ref_mag)) =
            Real.sqrt 2 * (snr_ref * (instrument.telescope_diameter / base.telescope_diameter) *
              Real.sqrt (t / model.ref_exptime) *
                (10 : ℝ) ^ (-(0.2) * (vmag - model.ref_mag))) := by ring
        rw [heq, if_neg (not_le.mpr (mul_pos (Real.sqrt_pos.mpr two_pos) hs1))]
        have hs1ne : (snr_ref * (instrument.telescope_diameter / base.telescope_diameter) *
            Real.sqrt (t / model.ref_exptime) *
              (10 : ℝ) ^ (-(0.2) * (vmag - model.ref_mag))) ≠ 0 := ne_of_gt hs1
        have hsqne : Real.sqrt 2 ≠ 0 := ne_of_gt (Real.sqrt_pos.mpr two_pos)
        simp only [Option.some.injEq, RVPrecisionOutput.mk.injEq]
        refine ⟨trivial, ?_, trivial, trivial, trivial⟩
        field_simp
        ring

/-- C5 (witness): at the ESPRESSO reference point (spectral type G2, V = 10,
t = 600 s) the computation succeeds with SNR 112.456 and RV precision 0.53 m/s, and
at 1200 s it returns exactly the `sqrt 2`-scaled outputs. -/
theorem snr_rv_double_time_scaling_witness :
    compute_rv_precision ESPRESSO "G2" 10 600 =
      some ⟨112.456, 0.53, 112.456, 0.53, "ESPRESSO"⟩
    ∧ compute_rv_precision ESPRESSO "G2" 10 (2 * 600) =
      some ⟨Real.sqrt 2 * 112.456, 0.53 / Real.sqrt 2, 112.456, 0.53, "ESPRESSO"⟩ := by
  have h1 : compute_rv_precision ESPRESSO "G2" 10 600 =
      some ⟨112.456, 0.53, 112.456, 0.53, "ESPRESSO"⟩ := by
    unfold compute_rv_precision compute_rv_precision_with select_model_with ESPRESSO
    norm_num [Real.sqrt_one, Real.one_rpow]
  exact ⟨h1, by simpa using snr_rv_double_time_scaling ESPRESSO "G2" 10 600 _ h1⟩

/-! ## C7: RV model selection and failure modes -/

/-- When the instrument carries its own model, selection returns it with the
instrument itself as base. -/
theorem select_model_with_own (catalog : String → Option Instrument)
    (instrument : Instrument) (model : RVEstimation)
    (h : instrument.rv_estimation = some model) :
    select_model_with catalog instrument = some (model, instrument) := by
  unfold select_model_with
  rw [h]

/-- When the instrument has no model, selection falls back to the catalog's
ESPRESSO entry. -/
theorem select_model_with_fallback (catalog : String → Option Instrument)
    (instrument espresso : Instrument) (model : RVEstimation)
    (h : instrument.rv_estimation = none) (he : catalog "ESPRESSO" = some espresso)
    (hm : espresso.rv_estimation = some model) :
    select_model_with catalog instrument = some (model, espresso) := by
  unfold select_model_with
  rw [h]
  dsimp only
  rw [he]
  dsimp only
  rw [hm]

/-- Success of `compute_rv_precision_with` pins the provenance fields to the
selected base model. -/
theorem compute_rv_precision_with_provenance (catalog : String → Option Instrument)
    (instrument : Instrument) (spectral_type : String) (vmag t : ℝ)
    (model : RVEstimation) (base : Instrument) (r : RVPrecisionOutput)
    (hsel : select_model_with catalog instrument = some (model, base))
    (h : compute_rv_precision_with catalog instrument spectral_type vmag t = some r) :
    r.scaled_from = base.name ∧ model.ref_snr spectral_type = some r.snr_ref ∧
      model.ref_rv_precision spectral_type = some r.rv_ref := by
  unfold compute_rv_precision_with at h
  rw [hsel] at h
  dsimp only at h
  cases hsnr : model.ref_snr spectral_type with
  | none => rw [hsnr] at h; cases h
  | some snr_ref =>
    rw [hsnr] at h
    cases hrv : model.ref_rv_precision spectral_type with
    | none => rw [hrv] at h; cases h
    | some rv_ref =>
      rw [hrv] at h
      dsimp only at h
      split_ifs at h
      have hr := Option.some.inj h
      subst hr
      exact ⟨rfl, rfl, rfl⟩


/-- C7: `compute_rv_precision` uses the instrument's own `RVEstimation` model when
present (and then reports the instrument's own identity); otherwise it uses the
catalog's ESPRESSO model and reports that instrument's identity; it returns no
result when neither provides a model, and no result when the selected model lacks a
reference SNR or reference RV precision for the requested spectral type. In the
engine's catalog the designated reference entry is `ESPRESSO`, which carries a
model. -/
theorem rv_model_selection (catalog : String → Option Instrument)
    (instrument : Instrument) (spectral_type : String) (vmag t : ℝ) :
    (∀ model, instrument.rv_estimation = some model →
        ∀ r, compute_rv_precision_with catalog instrument spectral_type vmag t = some r →
          r.scaled_from = instrument.name ∧ model.ref_snr spectral_type = some r.snr_ref ∧
            model.ref_rv_precision spectral_type = some r.rv_ref)
    ∧ (instrument.rv_estimation = none →
        (∀ espresso model, catalog "ESPRESSO" = some espresso →
            espresso.rv_estimation = some model →
            ∀ r, compute_rv_precision_with catalog instrument spectral_type vmag t = some r →
              r.scaled_from = espresso.name)
        ∧ (catalog "ESPRESSO" = none →
            compute_rv_precision_with catalog instrument spectral_type vmag t = none)
        ∧ (∀ espresso, catalog "ESPRESSO" = some espresso →
            espresso.rv_estimation = none →
            compute_rv_precision_with catalog instrument spectral_type vmag t = none))
    ∧ (∀ model base, select_model_with catalog instrument = some (model, base) →
        model.ref_snr spectral_type = none ∨ model.ref_rv_precision spectral_type = none →
        compute_rv_precision_with catalog instrument spectral_type vmag t = none)
    ∧ INSTRUMENTS "ESPRESSO" = some ESPRESSO ∧ ESPRESSO.name = "ESPRESSO"
    ∧ ESPRESSO.rv_estimation.isSome = true := by
  refine ⟨?_, ?_, ?_, ?_, rfl, rfl⟩
  · intro model hm r hr
    exact compute_rv_precision_with_provenance catalog instrument spectral_type vmag t
      model instrument r (select_model_with_own catalog instrument model hm) hr
  · intro hnone
    refine ⟨?_, ?_, ?_⟩
    · intro espresso model he hm r hr
      exact (compute_rv_precision_with_provenance catalog instrument spectral_type vmag t
        model espresso r
        (select_model_with_fallback catalog instrument espresso model hnone he hm) hr).1
    · intro he
      unfold compute_rv_precision_with select_model_with
      rw [hnone, he]
    · intro espresso he hm
      unfold compute_rv_precision_with select_model_with
      simp only [hnone, he, hm]
  · intro model base hsel habs
    unfold compute_rv_precision_with
    rw [hsel]
    dsimp only
    rcases habs with habs | habs
    · rw [habs]
    · rw [habs]
      cases model.ref_snr spectral_type <;> rfl
  · exact rfl

/-- C7 (witness): with an empty catalog and an instrument without its own model
(HARPS), the computation returns no result, via the model-selection theorem. -/
theorem rv_model_selection_witness :
    compute_rv_precision_with (fun _ => none) HARPS "G2" 10 600 = none :=
  ((rv_model_selection (fun _ => none) HARPS "G2" 10 600).2.1 rfl).2.1 rfl

/-! ## C9: missing-input behavior of the recompute drivers -/

/-- C9 (amended): when target, instrument or conditions are absent,
`recompute_observability` returns no result and leaves the state — in particular the
stored `observability` — untouched; `recompute_precision` returns no result when the
target or the instrument is absent (it does not consult `conditions`), but it
overwrites the stored `precision_result` with `None` rather than leaving it
untouched. -/
theorem missing_input_drivers (mkObserver : Observatory → Star → Observer)
    (app_state : AppState) :
    (app_state.star = none ∨ app_state.instrument = none ∨ app_state.conditions = none →
        recompute_observability mkObserver app_state = (app_state, none))
    ∧ (app_state.star = none ∨ app_state.instrument = none →
        recompute_precision app_state =
          ({ app_state with precision_result := none }, none)) := by
  constructor
  · intro h
    unfold recompute_observability
    cases hs : app_state.star with
    | none => rfl
    | some star =>
      cases hi : app_state.instrument with
      | none => rfl
      | some instrument =>
        cases hc : app_state.conditions with
        | none => rfl
        | some conditions =>
          rcases h with h | h | h
          · rw [hs] at h; exact Option.noConfusion h
          · rw [hi] at h; exact Option.noConfusion h
          · rw [hc] at h; exact Option.noConfusion h
  · intro h
    unfold recompute_precision
    cases hs : app_state.star with
    | none => rfl
    | some star =>
      cases hi : app_state.instrument with
      | none => rfl
      | some instrument =>
        rcases h with h | h
        · rw [hs] at h; exact Option.noConfusion h
        · rw [hi] at h; exact Option.noConfusion h

/-- C9 (witness): on the fixture state with no star, both drivers return no result;
the observability driver leaves the state unchanged and the precision driver clears
the stored result. -/
theorem missing_input_drivers_witness :
    recompute_observability (fun _ _ => witObserver) stateMissingStar =
      (stateMissingStar, none)
    ∧ recompute_precision stateMissingStar =
      ({ stateMissingStar with precision_result := none }, none) :=
  ⟨(missing_input_drivers (fun _ _ => witObserver) stateMissingStar).1 (Or.inl rfl),
   (missing_input_drivers (fun _ _ => witObserver) stateMissingStar).2 (Or.inl rfl)⟩

/-- C9 (counterexample): the precision driver does not leave the previously stored
output untouched — on a state with no star and a stored precision result, the call
replaces the stored result with `None`. -/
theorem precision_driver_clobbers_stored_output :
    stateMissingStar.precision_result = some trivialPrecision
    ∧ (recompute_precision stateMissingStar).1.precision_result = none := by
  exact ⟨rfl, rfl⟩

/-! ## C10: month-scope reference instants and order preservation -/

/-- Single-instant orchestration: the multi-night computation over one reference
instant is exactly one cache lookup/computation. -/
theorem multi_night_singleton (E : ℝ → Option ObservabilityResult) (t : ℝ)
    (s : CacheState) :
    compute_multi_night_observability E [t] s =
      (get_or_compute_night E t s).map fun p => ([p.1], p.2) := by
  cases h : get_or_compute_night E t s with
  | none => simp [compute_multi_night_observability, h]
  | some p =>
    obtain ⟨n, s'⟩ := p
    simp [compute_multi_night_observability, h]

/-- Concatenation of reference-instant lists composes the orchestration in order,
threading the cache state left to right. -/
theorem multi_night_append (E : ℝ → Option ObservabilityResult) (ts₁ ts₂ : List ℝ)
    (s : CacheState) :
    compute_multi_night_observability E (ts₁ ++ ts₂) s =
      (compute_multi_night_observability E ts₁ s).bind fun p =>
        (compute_multi_night_observability E ts₂ p.2).map fun q => (p.1 ++ q.1, q.2) := by
  induction ts₁ generalizing s with
  | nil =>
    simp only [List.nil_append, compute_multi_night_observability, Option.some_bind]
    cases hm : compute_multi_night_observability E ts₂ s <;> simp
  | cons t ts ih =>
    cases hg : get_or_compute_night E t s with
    | none => simp [compute_multi_night_observability, hg]
    | some p =>
      obtain ⟨n, s'⟩ := p
      simp only [List.cons_append, compute_multi_night_observability, hg]
      rw [List.append_eq, ih s']
      cases hts : compute_multi_night_observability E ts s' with
      | none => simp
      | some q =>
        obtain ⟨ns1, s1⟩ := q
        cases ht2 : compute_multi_night_observability E ts₂ s1 <;> simp [ht2]

/-- C10: the month scope generates exactly 31 reference instants, the i-th being
noon (UTC — the catalog constructs every observer with timezone "UTC", so local and
UTC noon coincide) of the calendar day `ref_date + (i − 15)` for `i = 0..30`, hence
spanning −15..+15 days inclusive in generation order; and the multi-night
orchestration preserves list order: it maps single instants to single lookups and
concatenation to ordered composition. -/
theorem monthly_scope_ref_times (reference_time : ℝ) :
    (monthly_ref_times reference_time).length = 31
    ∧ (∀ i : ℕ, i < 31 → (monthly_ref_times reference_time).getD i 0 =
        noon_of (date_of reference_time + (i : ℤ) - 15))
    ∧ (∀ (E : ℝ → Option ObservabilityResult) t s,
        compute_multi_night_observability E [t] s =
          (get_or_compute_night E t s).map fun p => ([p.1], p.2))
    ∧ (∀ (E : ℝ → Option ObservabilityResult) ts₁ ts₂ s,
        compute_multi_night_observability E (ts₁ ++ ts₂) s =
          (compute_multi_night_observability E ts₁ s).bind fun p =>
            (compute_multi_night_observability E ts₂ p.2).map fun q =>
              (p.1 ++ q.1, q.2)) := by
  have hlen : (monthly_ref_times reference_time).length = 31 := by
    unfold monthly_ref_times
    rw [List.length_map, List.length_range]
  refine ⟨hlen, ?_, fun E t s => multi_night_singleton E t s,
    fun E ts₁ ts₂ s => multi_night_append E ts₁ ts₂ s⟩
  intro i hi
  have hl : i < (monthly_ref_times reference_time).length := by
    rw [hlen]; exact hi
  rw [List.getD_eq_getElem _ _ hl]
  simp only [monthly_ref_times, List.getElem_map, List.getElem_range]

/-- C10 (witness): on reference instant 0, the month scope produces 31 instants and
the first is noon of day −15. -/
theorem monthly_scope_ref_times_witness :
    (monthly_ref_times 0).length = 31 ∧ (monthly_ref_times 0).getD 0 0 = noon_of (-15) := by
  refine ⟨(monthly_scope_ref_times 0).1, ?_⟩
  have h := (monthly_scope_ref_times 0).2.1 0 (by norm_num)
  have h2 : date_of 0 + ((0 : ℕ) : ℤ) - 15 = -15 := by norm_num [date_of]
  rw [h2] at h
  exact h

/-! ## C3, C6, C8: single-night mask properties -/

/-- Enumerating epochs between the floor and ceiling brackets is complete for a
positive period: the code's bounded search finds a transit exactly when some integer
epoch lands in the window. -/
theorem has_transit_in_window_iff (t0 P ws we : ℝ) (hP : 0 < P) :
    has_transit_in_window t0 P ws we = true ↔
      ∃ n : ℤ, ws ≤ t0 + (n : ℝ) * P ∧ t0 + (n : ℝ) * P ≤ we := by
  unfold has_transit_in_window
  simp only [decide_eq_true_eq]
  constructor
  · rintro ⟨n, -, h1, h2⟩
    exact ⟨n, h1, h2⟩
  · rintro ⟨n, h1, h2⟩
    refine ⟨n, ?_, h1, h2⟩
    rw [Finset.mem_Icc]
    constructor
    · have hle : (ws - t0) / P ≤ (n : ℝ) := by
        rw [div_le_iff₀ hP]; linarith
      calc ⌊(ws - t0) / P⌋ ≤ ⌊((n : ℤ) : ℝ)⌋ := Int.floor_le_floor hle
        _ = n := Int.floor_intCast n
    · have hle : (n : ℝ) ≤ (we - t0) / P := by
        rw [le_div_iff₀ hP]; linarith
      calc n = ⌈((n : ℤ) : ℝ)⌉ := (Int.ceil_intCast n).symm
        _ ≤ ⌈(we - t0) / P⌉ := Int.ceil_le_ceil hle

/-- The post-transit mask triple is either the planet-free triple or the cleared
fail-closed triple. -/
theorem masked_triple_eq_base_or_fail (observer : Observer)
    (conditions : ObservingConditions) (pp : Option PlanetParameters) (ns ne : ℝ) :
    masked_triple observer conditions pp ns ne = masked_triple observer conditions none ns ne
    ∨ masked_triple observer conditions pp ns ne =
        (List.replicate DAY_OBS_NSAMPLES false, 0, false) := by
  cases pp with
  | none => exact Or.inl rfl
  | some p =>
    unfold masked_triple
    dsimp only
    by_cases hinc : p.include_transit_in_observability = true
    · rw [if_pos hinc]
      cases p.t0_jd with
      | none => exact Or.inr rfl
      | some t0 =>
        cases p.orbital_period_days with
        | none => exact Or.inr rfl
        | some P =>
          dsimp only
          by_cases htr : has_transit_in_window t0 P ns ne = true
          · rw [if_pos htr]; exact Or.inl rfl
          · rw [if_neg htr]; exact Or.inr rfl
    · rw [if_neg hinc]; exact Or.inl rfl

/-- Invariants of the mask triple: the mask has the grid's sample count, a set mask
bit certifies the sample lies in the night window, and the observable time is the
grid spacing times the mask count — on both the normal and the fail-closed path. -/
theorem masked_triple_invariants (observer : Observer)
    (conditions : ObservingConditions) (pp : Option PlanetParameters) (ns ne : ℝ) :
    (masked_triple observer conditions pp ns ne).1.length = DAY_OBS_NSAMPLES
    ∧ (∀ i, (masked_triple observer conditions pp ns ne).1.getD i false = true →
        ns ≤ (time_grid ns ne).getD i 0 ∧ (time_grid ns ne).getD i 0 ≤ ne)
    ∧ (masked_triple observer conditions pp ns ne).2.1 =
        grid_dt ns ne * ((masked_triple observer conditions pp ns ne).1.count true : ℝ) := by
  rcases masked_triple_eq_base_or_fail observer conditions pp ns ne with hc | hc <;> rw [hc]
  · refine ⟨?_, ?_, ?_⟩
    · show (base_mask observer conditions ns ne).length = _
      unfold base_mask time_grid
      rw [List.length_map, List.length_map, List.length_range]
    · intro i hi
      have hi' : (base_mask observer conditions ns ne).getD i false = true := hi
      unfold base_mask at hi'
      by_cases hlt : i < (time_grid ns ne).length
      · have hlt' : i < ((time_grid ns ne).map fun t =>
            decide (ns ≤ t ∧ t ≤ ne)
            && decide (observer.altitude_deg t ≥ min_altitude_deg conditions.max_airmass)
            && moon_mask_sample conditions.min_moon_separation
                 conditions.ignore_moon_if_fli_above
                 (observer.moon_sep_deg t) (observer.moon_fli t)
            && observer.altitude_finite t).length := by
          simpa using hlt
        rw [List.getD_eq_getElem _ _ hlt', List.getElem_map] at hi'
        simp only [Bool.and_eq_true, decide_eq_true_eq] at hi'
        rw [List.getD_eq_getElem _ _ hlt]
        exact hi'.1.1.1
      · have hge : ((time_grid ns ne).map fun t =>
            decide (ns ≤ t ∧ t ≤ ne)
            && decide (observer.altitude_deg t ≥ min_altitude_deg conditions.max_airmass)
            && moon_mask_sample conditions.min_moon_separation
                 conditions.ignore_moon_if_fli_above
                 (observer.moon_sep_deg t) (observer.moon_fli t)
            && observer.altitude_finite t).length ≤ i := by
          simpa using not_lt.mp hlt
        rw [List.getD_eq_default _ _ hge] at hi'
        exact absurd hi' (by simp)
    · show ((base_mask observer conditions ns ne).count true : ℝ) * grid_dt ns ne = _
      exact mul_comm _ _
  · refine ⟨by simp, ?_, ?_⟩
    swap
    · show (0 : ℝ) = grid_dt ns ne * ((List.replicate DAY_OBS_NSAMPLES false).count true : ℝ)
      have hcount : (List.replicate DAY_OBS_NSAMPLES false).count true = 0 := by
        rw [List.count_replicate]
        rfl
      rw [hcount]
      norm_num
    intro i hi
    exfalso
    have hrep : (List.replicate DAY_OBS_NSAMPLES false).getD i false = false := by
      rcases Nat.lt_or_ge i DAY_OBS_NSAMPLES with hlt | hge
      · rw [List.getD_eq_getElem _ _ (by simpa using hlt)]
        simp
      · rw [List.getD_eq_default _ _ (by simpa using hge)]
    rw [hrep] at hi
    exact absurd hi (by simp)

/-- C6: every `ObservabilityResult` returned by the single-night evaluator has a
mask of the same length as its time grid; a set mask bit certifies the sample lies
in `[night_start, night_end]`; and `observable_time` equals the uniform grid
spacing (`time_grid[1] − time_grid[0]`) times the masked-sample count — including
on the transit fail-closed path. -/
theorem observability_result_invariants (observer : Observer)
    (conditions : ObservingConditions) (pp : Option PlanetParameters)
    (ref_time : ℝ) (night_definition : String) (r : ObservabilityResult)
    (h : compute_single_night_observability observer ref_time conditions
        night_definition pp = some r) :
    r.mask.length = r.time_grid.length
    ∧ (∀ i, r.mask.getD i false = true →
        r.night_start ≤ r.time_grid.getD i 0 ∧ r.time_grid.getD i 0 ≤ r.night_end)
    ∧ r.observable_time =
        (r.time_grid.getD 1 0 - r.time_grid.getD 0 0) * (r.mask.count true : ℝ) := by
  unfold compute_single_night_observability at h
  cases hb : night_bounds observer ref_time night_definition with
  | none => rw [hb] at h; cases h
  | some be =>
    rw [hb] at h
    obtain ⟨ns, ne⟩ := be
    rw [Option.map_some'] at h
    have hr := Option.some.inj h
    subst hr
    obtain ⟨h1, h2, h3⟩ := masked_triple_invariants observer conditions pp ns ne
    refine ⟨?_, h2, ?_⟩
    · show (masked_triple observer conditions pp ns ne).1.length = (time_grid ns ne).length
      rw [h1]
      unfold time_grid
      rw [List.length_map, List.length_range]
    · exact h3

/-- C6 (witness): the invariants instantiated at the constant-ephemeris fixture
observer with default conditions and no planet constraint. -/
theorem observability_result_invariants_witness :
    (compute_observability_core witObserver defaultConditions none 0 0).mask.length =
      (compute_observability_core witObserver defaultConditions none 0 0).time_grid.length :=
  (observability_result_invariants witObserver defaultConditions none 0
    "Sunset to sunrise" (compute_observability_core witObserver defaultConditions none 0 0)
    rfl).1

/-- Planet parameters fixture with a transit at JD 0.5 and period 1, transit
required. -/
noncomputable def pWit : PlanetParameters :=
  ⟨some (1 / 2), some 1, true, none, 1⟩

/-- C3: with `require_transit_in_window` set, a missing T0 or period, or the
absence of any transit instant `T0 + n·P` in `[night_start, night_end]` (the
bounded search is complete for positive periods), clears the mask entirely, zeroes
`observable_time` and lowers `is_observable`, regardless of altitude and Moon
conditions; when some transit instant lies in the window, the mask of the
planet-free evaluation is returned unchanged. -/
theorem transit_filter (observer : Observer) (ref_time : ℝ)
    (conditions : ObservingConditions) (night_definition : String)
    (p : PlanetParameters) (r : ObservabilityResult)
    (hinc : p.include_transit_in_observability = true)
    (h : compute_single_night_observability observer ref_time conditions
        night_definition (some p) = some r) :
    ((p.t0_jd = none ∨ p.orbital_period_days = none) →
        r.mask = List.replicate DAY_OBS_NSAMPLES false ∧ r.observable_time = 0 ∧
          r.is_observable = false)
    ∧ (∀ t0 P, p.t0_jd = some t0 → p.orbital_period_days = some P → 0 < P →
        ((¬ ∃ n : ℤ, r.night_start ≤ t0 + (n : ℝ) * P ∧ t0 + (n : ℝ) * P ≤ r.night_end) →
            r.mask = List.replicate DAY_OBS_NSAMPLES false ∧ r.observable_time = 0 ∧
              r.is_observable = false)
        ∧ ((∃ n : ℤ, r.night_start ≤ t0 + (n : ℝ) * P ∧ t0 + (n : ℝ) * P ≤ r.night_end) →
            ∀ r0, compute_single_night_observability observer ref_time conditions
                night_definition none = some r0 →
              r.mask = r0.mask)) := by
  unfold compute_single_night_observability at h
  cases hb : night_bounds observer ref_time night_definition with
  | none => rw [hb] at h; cases h
  | some be =>
    rw [hb] at h
    obtain ⟨ns, ne⟩ := be
    rw [Option.map_some'] at h
    have hr := Option.some.inj h
    subst hr
    constructor
    · intro habs
      have htrip : masked_triple observer conditions (some p) ns ne =
          (List.replicate DAY_OBS_NSAMPLES false, 0, false) := by
        unfold masked_triple
        dsimp only
        rw [if_pos hinc]
        rcases habs with h0 | h0
        · rw [h0]
        · rw [h0]
          cases p.t0_jd <;> rfl
      exact ⟨congrArg Prod.fst htrip, congrArg (fun q => q.2.1) htrip,
        congrArg (fun q => q.2.2) htrip⟩
    · intro t0 P ht0 hP hPpos
      have hns : (compute_observability_core observer conditions (some p) ns ne).night_start
          = ns := rfl
      have hne : (compute_observability_core observer conditions (some p) ns ne).night_end
          = ne := rfl
      constructor
      · intro hno
        have hno' : ¬ ∃ n : ℤ, ns ≤ t0 + (n : ℝ) * P ∧ t0 + (n : ℝ) * P ≤ ne := hno
        have hfalse : has_transit_in_window t0 P ns ne = false := by
          rcases Bool.eq_false_or_eq_true (has_transit_in_window t0 P ns ne) with ht | hf
          · exact absurd ((has_transit_in_window_iff t0 P ns ne hPpos).mp ht) hno'
          · exact hf
        have htrip : masked_triple observer conditions (some p) ns ne =
            (List.replicate DAY_OBS_NSAMPLES false, 0, false) := by
          unfold masked_triple
          dsimp only
          rw [if_pos hinc, ht0, hP]
          dsimp only
          rw [if_neg (by rw [hfalse]; exact Bool.false_ne_true)]
        exact ⟨congrArg Prod.fst htrip, congrArg (fun q => q.2.1) htrip,
          congrArg (fun q => q.2.2) htrip⟩
      · intro hyes r0 h0
        have htrue : has_transit_in_window t0 P ns ne = true :=
          (has_transit_in_window_iff t0 P ns ne hPpos).mpr hyes
        have htrip : masked_triple observer conditions (some p) ns ne =
            masked_triple observer conditions none ns ne := by
          unfold masked_triple
          dsimp only
          rw [if_pos hinc, ht0, hP]
          dsimp only
          rw [if_pos htrue]
        have h0' : compute_observability_core observer conditions none ns ne = r0 := by
          unfold compute_single_night_observability at h0
          rw [hb, Option.map_some'] at h0
          exact Option.some.inj h0
        show (masked_triple observer conditions (some p) ns ne).1 = r0.mask
        rw [htrip, ← h0']
        rfl

/-- C3 (witness): at the fixture observer (night window `[0, 0]`), transit epoch
0.5 and period 1, no transit instant lies in the window, so the mask is cleared,
the observable time is zero and the night is not observable. -/
theorem transit_filter_witness :
    (compute_observability_core witObserver defaultConditions (some pWit) 0 0).mask =
        List.replicate DAY_OBS_NSAMPLES false
    ∧ (compute_observability_core witObserver defaultConditions (some pWit) 0 0).observable_time
        = 0
    ∧ (compute_observability_core witObserver defaultConditions (some pWit) 0 0).is_observable
        = false := by
  have H := (transit_filter witObserver 0 defaultConditions "Sunset to sunrise" pWit
    (compute_observability_core witObserver defaultConditions (some pWit) 0 0) rfl rfl).2
    (1 / 2) 1 rfl rfl one_pos
  apply H.1
  rintro ⟨n, h1, h2⟩
  have h1' : (0 : ℝ) ≤ 1 / 2 + (n : ℝ) * 1 := h1
  have h2' : 1 / 2 + (n : ℝ) * 1 ≤ 0 := h2
  have hlt : (n : ℝ) < 0 := by linarith
  have hn0 : n < 0 := by exact_mod_cast hlt
  have hn1 : n ≤ -1 := by omega
  have hcast : (n : ℝ) ≤ -1 := by exact_mod_cast hn1
  linarith

/-- The Moon mask ignores the illumination input entirely once the threshold
reaches 1. -/
theorem moon_mask_sample_of_ge_one {α : Type} [LinearOrderedField α] {thr : α}
    (h : 1 ≤ thr) (min_sep sep fli : α) :
    moon_mask_sample min_sep thr sep fli = decide (sep ≥ min_sep) := by
  unfold moon_mask_sample
  rw [if_neg (not_lt.mpr h)]

/-- C8: with `ignore_moon_if_fli_above ≥ 1`, the illumination series never affects
the mask — two single-night evaluations differing only in the Moon illumination
function yield identical masks. -/
theorem fli_noninterference (observer : Observer) (g : ℝ → ℝ) (ref_time : ℝ)
    (conditions : ObservingConditions) (night_definition : String)
    (pp : Option PlanetParameters)
    (h : 1 ≤ conditions.ignore_moon_if_fli_above) :
    (compute_single_night_observability { observer with moon_fli := g } ref_time
        conditions night_definition pp).map ObservabilityResult.mask
      = (compute_single_night_observability observer ref_time conditions
          night_definition pp).map ObservabilityResult.mask := by
  have hbnd : night_bounds { observer with moon_fli := g } ref_time night_definition =
      night_bounds observer ref_time night_definition := rfl
  unfold compute_single_night_observability
  rw [hbnd]
  cases hnb : night_bounds observer ref_time night_definition with
  | none => rfl
  | some be =>
    obtain ⟨ns, ne⟩ := be
    rw [Option.map_some', Option.map_some', Option.map_some', Option.map_some']
    congr 1
    show (masked_triple { observer with moon_fli := g } conditions pp ns ne).1 =
      (masked_triple observer conditions pp ns ne).1
    have hbase : base_mask { observer with moon_fli := g } conditions ns ne =
        base_mask observer conditions ns ne := by
      unfold base_mask
      simp only [moon_mask_sample_of_ge_one h]
    unfold masked_triple
    rw [hbase]

/-- C8 (witness): at the fixture observer with the threshold raised to 1, replacing
the illumination series by the constant 1 leaves the mask unchanged. -/
theorem fli_noninterference_witness :
    (compute_single_night_observability { witObserver with moon_fli := fun _ => 1 } 0
        { defaultConditions with ignore_moon_if_fli_above := 1 } "Sunset to sunrise"
        none).map ObservabilityResult.mask
      = (compute_single_night_observability witObserver 0
          { defaultConditions with ignore_moon_if_fli_above := 1 } "Sunset to sunrise"
          none).map ObservabilityResult.mask :=
  fli_noninterference witObserver (fun _ => 1) 0
    { defaultConditions with ignore_moon_if_fli_above := 1 } "Sunset to sunrise" none
    (le_refl 1)

/-- C1 (counterexample): with the cache already containing the entry for the civil
night date (the lookup succeeds), a further `get_or_compute_night` call still
invokes the underlying single-night evaluator — the instrumentation counter
advances from 5 to 6 — contradicting "zero recomputation / the evaluator is not
invoked"; the stored entry itself is returned unchanged. -/
theorem night_cache_recomputes_on_hit :
    (([((0 : ℤ), trivialEntry)]).lookup (date_of trivialResult.night_start)).isSome = true
    ∧ get_or_compute_night constEval 0 ⟨[(0, trivialEntry)], 5⟩ =
        some (trivialEntry, ⟨[(0, trivialEntry)], 6⟩) := by
  constructor
  · simp [trivialResult, date_of, List.lookup]
  · unfold get_or_compute_night constEval
    simp [trivialResult, date_of, List.lookup, trivialEntry]

end Exoptima
